import Mathlib

/-!
# Verification of the `case_serasa` transaction service and batch ingestor

Shallow embedding of the repository's core logic:

* `src/batch/ingest.py` — `ingest_parquet_to_db`: validation and bulk load of
  partitioned Parquet data into a DuckDB table.
* `src/api/api.py` — the `DELETE /transactions/{id}` handler and the startup
  schema-creation step.
* `src/api/model.py` — the `CREATE SEQUENCE IF NOT EXISTS` /
  `CREATE TABLE IF NOT EXISTS` DDL statements.

Pandas dataframes are modelled as ordered lists of named columns; the DuckDB
database is modelled by the destination table's row count (the only state the
specified properties mention), and each ingestion call additionally reports
the relation it registered for insertion, the completion report it printed,
and which connection-lifecycle events occurred.
-/

namespace CaseSerasa

/-- A pandas DataFrame, as produced by
`con.execute("SELECT * FROM read_parquet(...)").df()`: an ordered list of
named columns, each with its cell data. -/
structure DataFrame (α : Type) where
  cols : List (String × List α)
deriving DecidableEq, Repr

/-- Embeds `df.columns.tolist()` — the column names in physical order. -/
def DataFrame.columnNames {α : Type} (df : DataFrame α) : List String :=
  df.cols.map Prod.fst

/-- Column lookup by name (first match), the semantics of `df[c]` for a
present column name; absent names yield `[]` (the checks in the embedded code
guard every use). -/
def DataFrame.findCol {α : Type} (df : DataFrame α) (c : String) : List α :=
  match df.cols.find? (fun p => p.1 = c) with
  | some p => p.2
  | none => []

/-- Embeds `df[names]` — project onto the given column names, in that order. -/
def DataFrame.select {α : Type} (df : DataFrame α) (names : List String) :
    DataFrame α :=
  ⟨names.map (fun c => (c, df.findCol c))⟩

/-- Embeds `len(df)` — the number of rows (length of the first column; `0` for a
relation with no columns). -/
def DataFrame.nRows {α : Type} (df : DataFrame α) : Nat :=
  match df.cols with
  | [] => 0
  | p :: _ => p.2.length

/-- Well-formedness of a real dataframe: all columns have the same length. -/
def DataFrame.Aligned {α : Type} (df : DataFrame α) : Prop :=
  ∀ p ∈ df.cols, p.2.length = df.nRows

/-- Row-concatenation of two relations sharing one physical schema, the
combination `read_parquet` performs across partition files. -/
def DataFrame.append {α : Type} (a b : DataFrame α) : DataFrame α :=
  ⟨a.cols.zipWith (fun p q => (p.1, p.2 ++ q.2)) b.cols⟩

/-- The schema `definition` dict passed to `ingest_parquet_to_db`
(`table_name`, `base_query`, `expected_columns`). -/
structure Definition where
  table_name : String
  base_query : String
  expected_columns : List String
deriving DecidableEq, Repr

/-- The filesystem state relevant to one ingestion call: whether
`parquet_path` exists, and the contents of the parquet files matched by the
two-level glob `parquet_path/*/*.parquet`. -/
structure FileSystem (α : Type) where
  rootExists : Bool
  matchedFiles : List (DataFrame α)
deriving DecidableEq, Repr

/-- The errors `ingest_parquet_to_db` can raise.

* `pathNotFound p` — `FileNotFoundError(f"Path for {p} does not exist.")`;
* `noParquetFiles` — the IO error DuckDB's `read_parquet` raises when the
  glob matches no files (modelled from DuckDB semantics: an empty glob raises
  `IO Error: No files found that match the pattern`, it does not return an
  empty relation);
* `missingColumns ms` — `ValueError(f"missing columns: {ms}")`, where `ms` is
  the list the code built (lowercased names);
* `forbiddenColumns` — the `ValueError` raised when `id`/`created_at` appear
  in the input (its message states those fields are auto-generated). -/
inductive IngestError where
  | pathNotFound (path : String)
  | noParquetFiles
  | missingColumns (cols : List String)
  | forbiddenColumns
deriving DecidableEq, Repr

/-- The completion report printed on success:
`f"Ingestion done for {table_name}, {len(df)} lines processed."`. -/
structure Report where
  table_name : String
  lines : Nat
deriving DecidableEq, Repr

/-- Observable outcome of one `ingest_parquet_to_db` call. `db` is the
destination table's row count after the call, `inserted` the relation
registered as `temp_df` and bulk-inserted (if the call got that far), and the
three booleans record whether `duckdb.connect` ran, whether `con.close()` ran,
and whether the parquet scan was attempted. -/
structure IngestResult (α : Type) where
  outcome : Option IngestError
  db : Nat
  report : Option Report
  inserted : Option (DataFrame α)
  connOpened : Bool
  connClosed : Bool
  scanAttempted : Bool
deriving DecidableEq, Repr

/-- Python's `str.lower`, restricted to ASCII (column names in this code base
are ASCII; on ASCII, `str.lower` maps exactly `A`–`Z` to `a`–`z`). -/
def pyLower (s : String) : String :=
  ⟨s.data.map Char.toLower⟩

/-- Embeds `[c.lower() for c in expected_columns if c not in existing_cols]` —
the case-sensitive missing-column computation of `ingest.py` line 74. -/
def missingColsOf (expected_columns existing_cols : List String) :
    List String :=
  (expected_columns.filter (fun c => c ∉ existing_cols)).map pyLower

/-- Embeds `SELECT * FROM read_parquet(scan_path)` over the files matched by the
glob: row-concatenation of all matched files. Modelled from DuckDB
semantics: an empty match raises an IO error rather than producing an empty
relation. -/
def duckdbScan {α : Type} (files : List (DataFrame α)) :
    Except IngestError (DataFrame α) :=
  match files with
  | [] => .error .noParquetFiles
  | f :: fs => .ok (fs.foldl DataFrame.append f)

/-- Shallow embedding of `ingest_parquet_to_db(db_path, parquet_path,
definition)` (`src/batch/ingest.py`).  `fs` is the filesystem state at
`parquet_path`, `db` the destination table's row count before the call.
Each branch mirrors the source line by line: existence check, connect,
scan, missing-column check, forbidden-column check, reorder, create table
(row-count invisible), register + insert, close, print. -/
def ingest_parquet_to_db {α : Type} [DecidableEq α] (fs : FileSystem α)
    (db : Nat) (parquet_path : String) (definition : Definition) :
    IngestResult α :=
  let expected_columns := definition.expected_columns
  let table_name := definition.table_name
  if fs.rootExists = false then
    { outcome := some (.pathNotFound parquet_path), db := db, report := none,
      inserted := none, connOpened := false, connClosed := false,
      scanAttempted := false }
  else
    match duckdbScan fs.matchedFiles with
    | .error e =>
        { outcome := some e, db := db, report := none, inserted := none,
          connOpened := true, connClosed := false, scanAttempted := true }
    | .ok df =>
        let existing_cols := df.columnNames
        let missing_cols := missingColsOf expected_columns existing_cols
        if missing_cols ≠ [] then
          { outcome := some (.missingColumns missing_cols), db := db,
            report := none, inserted := none, connOpened := true,
            connClosed := false, scanAttempted := true }
        else if "id" ∈ existing_cols ∨ "created_at" ∈ existing_cols then
          { outcome := some .forbiddenColumns, db := db, report := none,
            inserted := none, connOpened := true, connClosed := false,
            scanAttempted := true }
        else
          let df2 := df.select expected_columns
          { outcome := none, db := db + df2.nRows,
            report := some ⟨table_name, df2.nRows⟩, inserted := some df2,
            connOpened := true, connClosed := true, scanAttempted := true }

/-! ## Helper lemmas about the dataframe model -/

theorem DataFrame.findCol_spec {α : Type} (df : DataFrame α) {c : String}
    (h : c ∈ df.columnNames) :
    ∃ p, p ∈ df.cols ∧ p.1 = c ∧ df.findCol c = p.2 := by
  have hex : ∃ p, p ∈ df.cols ∧ (fun p : String × List α => p.1 = c) p := by
    simp only [DataFrame.columnNames, List.mem_map] at h
    obtain ⟨p, hp, hpc⟩ := h
    exact ⟨p, hp, by simpa using hpc⟩
  have hsome : (df.cols.find? (fun p => p.1 = c)).isSome := by
    rw [List.find?_isSome]
    simpa using hex
  obtain ⟨q, hq⟩ := Option.isSome_iff_exists.mp hsome
  refine ⟨q, List.mem_of_find?_eq_some hq, ?_, ?_⟩
  · have := List.find?_some hq
    simpa using this
  · simp [DataFrame.findCol, hq]

theorem DataFrame.nRows_select_of_ne_nil {α : Type} (df : DataFrame α)
    {names : List String} (hne : names ≠ []) (halign : df.Aligned)
    (hmem : ∀ c ∈ names, c ∈ df.columnNames) :
    (df.select names).nRows = df.nRows := by
  match names, hne with
  | n :: ns, _ =>
    obtain ⟨p, hp, _, hfind⟩ := df.findCol_spec (hmem n (by simp))
    simp only [DataFrame.select, DataFrame.nRows, List.map_cons]
    rw [hfind]
    exact halign p hp

theorem missingColsOf_eq_nil {expected existing : List String}
    (h : ∀ c ∈ expected, c ∈ existing) :
    missingColsOf expected existing = [] := by
  simp only [missingColsOf, List.map_eq_nil_iff, List.filter_eq_nil_iff]
  intro c hc
  simpa using h c hc

/-! ## C1 — successful ingestion -/

/-- Claim C1: For every partitioned input dataset whose columns are a superset
of `definition.expected_columns` and contain neither an `id` nor a
`created_at` column, `ingest_parquet_to_db` succeeds, the destination table's
row count increases by exactly the number of source rows, and the completion
report states the destination table name and that number of rows
processed. -/
theorem C1_ingest_success {α : Type} [DecidableEq α] (fs : FileSystem α)
    (db : Nat) (parquet_path : String) (definition : Definition)
    (df : DataFrame α)
    (hroot : fs.rootExists = true)
    (hscan : duckdbScan fs.matchedFiles = Except.ok df)
    (halign : df.Aligned)
    (hsup : ∀ c ∈ definition.expected_columns, c ∈ df.columnNames)
    (hid : "id" ∉ df.columnNames)
    (hts : "created_at" ∉ df.columnNames)
    (hne : definition.expected_columns ≠ []) :
    (ingest_parquet_to_db fs db parquet_path definition).outcome = none ∧
    (ingest_parquet_to_db fs db parquet_path definition).db =
      db + df.nRows ∧
    (ingest_parquet_to_db fs db parquet_path definition).report =
      some ⟨definition.table_name, df.nRows⟩ := by
  have hmiss := missingColsOf_eq_nil hsup
  have hn := df.nRows_select_of_ne_nil hne halign hsup
  simp [ingest_parquet_to_db, hroot, hscan, hmiss, hid, hts, hn]

/-- Concrete instantiation of `C1_ingest_success`: a two-partition dataset
(2 + 1 rows) with columns `time`, `amount` plus an extra `v1`. -/
def fsC1 : FileSystem Nat :=
  ⟨true, [⟨[("time", [1, 2]), ("amount", [10, 20]), ("v1", [0, 0])]⟩,
          ⟨[("time", [3]), ("amount", [30]), ("v1", [0])]⟩]⟩

/-- The schema definition used by the concrete witnesses: destination table
`transactions`, expected columns `time`, `amount`. -/
def defnW : Definition :=
  ⟨"transactions", "CREATE TABLE IF NOT EXISTS transactions", ["time", "amount"]⟩

/-- Witness for `C1_ingest_success` at a concrete dataset. -/
theorem C1_ingest_success_witness :
    (ingest_parquet_to_db fsC1 7 "data/transactions" defnW).outcome = none ∧
    (ingest_parquet_to_db fsC1 7 "data/transactions" defnW).db = 7 + 3 ∧
    (ingest_parquet_to_db fsC1 7 "data/transactions" defnW).report =
      some ⟨"transactions", 3⟩ :=
  C1_ingest_success fsC1 7 "data/transactions" defnW
    ⟨[("time", [1, 2, 3]), ("amount", [10, 20, 30]), ("v1", [0, 0, 0])]⟩
    (by decide) rfl (by unfold DataFrame.Aligned; decide) (by decide)
    (by decide) (by decide) (by decide)

/-! ## C2 — missing expected columns -/

theorem mem_missingColsOf {expected existing : List String} {c : String}
    (hc : c ∈ expected) (hnot : c ∉ existing) :
    pyLower c ∈ missingColsOf expected existing := by
  simp only [missingColsOf, List.mem_map, List.mem_filter]
  exact ⟨c, ⟨hc, by simpa using hnot⟩, rfl⟩

/-- Claim C2: For every scanned dataset in which at least one column of
`definition.expected_columns` is absent, `ingest_parquet_to_db` fails with a
"missing columns" error whose message names every missing column (one entry
per missing column, not just the first), and the destination table's row
count is unchanged (no rows are inserted). -/
theorem C2_missing_columns {α : Type} [DecidableEq α] (fs : FileSystem α)
    (db : Nat) (parquet_path : String) (definition : Definition)
    (df : DataFrame α)
    (hroot : fs.rootExists = true)
    (hscan : duckdbScan fs.matchedFiles = Except.ok df)
    (hmiss : ∃ c ∈ definition.expected_columns, c ∉ df.columnNames) :
    (ingest_parquet_to_db fs db parquet_path definition).outcome =
      some (.missingColumns
        (missingColsOf definition.expected_columns df.columnNames)) ∧
    (∀ c ∈ definition.expected_columns, c ∉ df.columnNames →
      pyLower c ∈ missingColsOf definition.expected_columns df.columnNames) ∧
    (ingest_parquet_to_db fs db parquet_path definition).db = db ∧
    (ingest_parquet_to_db fs db parquet_path definition).inserted = none ∧
    (ingest_parquet_to_db fs db parquet_path definition).report = none := by
  obtain ⟨c, hc, hcn⟩ := hmiss
  have hne : missingColsOf definition.expected_columns df.columnNames ≠ [] :=
    List.ne_nil_of_mem (mem_missingColsOf hc hcn)
  refine ⟨?_, fun c' hc' hcn' => mem_missingColsOf hc' hcn', ?_, ?_, ?_⟩ <;>
    simp [ingest_parquet_to_db, hroot, hscan, hne]

/-- Dataset for the C2 witness: a single file carrying only a `v1` column. -/
def fsC2 : FileSystem Nat := ⟨true, [⟨[("v1", [5])]⟩]⟩

/-- Witness for `C2_missing_columns`: both expected columns are missing and
both are listed in the error; the row count stays at 5. -/
theorem C2_missing_columns_witness :
    (ingest_parquet_to_db fsC2 5 "data/transactions" defnW).outcome =
      some (IngestError.missingColumns ["time", "amount"]) ∧
    (ingest_parquet_to_db fsC2 5 "data/transactions" defnW).db = 5 ∧
    (ingest_parquet_to_db fsC2 5 "data/transactions" defnW).inserted = none ∧
    (ingest_parquet_to_db fsC2 5 "data/transactions" defnW).report = none := by
  have h := C2_missing_columns fsC2 5 "data/transactions" defnW ⟨[("v1", [5])]⟩
    (by decide) rfl ⟨"time", by decide, by decide⟩
  exact ⟨by rw [h.1]; decide, h.2.2.1, h.2.2.2.1, h.2.2.2.2⟩

/-! ## C3 — forbidden `id` / `created_at` columns -/

/-- Claim C3 (amended): For every scanned dataset containing an `id` or
`created_at` column, ingestion fails and no rows are written; when the
dataset moreover has all expected columns (so the presence check passes), the
failure is the auto-generated-fields error.  (As literally stated the claim
is false: the forbidden-column check is sequenced *after* the missing-columns
check, so a dataset that both lacks expected columns and carries `id` fails
with the missing-columns error instead — see `C3_forbidden_counterexample`.) -/
theorem C3_forbidden_columns {α : Type} [DecidableEq α] (fs : FileSystem α)
    (db : Nat) (parquet_path : String) (definition : Definition)
    (df : DataFrame α)
    (hroot : fs.rootExists = true)
    (hscan : duckdbScan fs.matchedFiles = Except.ok df)
    (hforb : "id" ∈ df.columnNames ∨ "created_at" ∈ df.columnNames) :
    (ingest_parquet_to_db fs db parquet_path definition).db = db ∧
    (ingest_parquet_to_db fs db parquet_path definition).inserted = none ∧
    (ingest_parquet_to_db fs db parquet_path definition).outcome ≠ none ∧
    ((∀ c ∈ definition.expected_columns, c ∈ df.columnNames) →
      (ingest_parquet_to_db fs db parquet_path definition).outcome =
        some .forbiddenColumns) := by
  by_cases hm : missingColsOf definition.expected_columns df.columnNames = []
  · simp [ingest_parquet_to_db, hroot, hscan, hm, hforb]
  · refine ⟨?_, ?_, ?_, fun hall => absurd (missingColsOf_eq_nil hall) hm⟩ <;>
      simp [ingest_parquet_to_db, hroot, hscan, hm]

/-- Dataset refuting C3 as stated: it carries `id` *and* misses the expected
columns. -/
def fsC3 : FileSystem Nat := ⟨true, [⟨[("id", [1])]⟩]⟩

/-- Counterexample to claim C3 as stated: on a dataset containing an `id`
column that also misses expected columns, `ingest_parquet_to_db` raises the
missing-columns error, not the auto-generated-fields error — the forbidden
check did not run because the presence check had already failed. -/
theorem C3_forbidden_counterexample :
    (ingest_parquet_to_db fsC3 0 "data/transactions" defnW).outcome =
      some (IngestError.missingColumns ["time", "amount"]) ∧
    (ingest_parquet_to_db fsC3 0 "data/transactions" defnW).outcome ≠
      some IngestError.forbiddenColumns := by
  decide

/-- Dataset for the C3 witness: all expected columns present plus `id`. -/
def fsC3w : FileSystem Nat :=
  ⟨true, [⟨[("time", [1]), ("amount", [2]), ("id", [3])]⟩]⟩

/-- Witness for `C3_forbidden_columns`: expected columns all present, `id`
also present — rejected with the auto-generated-fields error, count kept. -/
theorem C3_forbidden_columns_witness :
    (ingest_parquet_to_db fsC3w 9 "data/transactions" defnW).db = 9 ∧
    (ingest_parquet_to_db fsC3w 9 "data/transactions" defnW).inserted = none ∧
    (ingest_parquet_to_db fsC3w 9 "data/transactions" defnW).outcome =
      some IngestError.forbiddenColumns := by
  have h := C3_forbidden_columns fsC3w 9 "data/transactions" defnW
    ⟨[("time", [1]), ("amount", [2]), ("id", [3])]⟩ (by decide) rfl
    (Or.inl (by decide))
  exact ⟨h.1, h.2.1, h.2.2.2 (by decide)⟩

/-! ## C8 — nonexistent input path -/

/-- Claim C8: For every ingestion call where `parquet_path` does not exist,
`ingest_parquet_to_db` fails immediately with a "path not found" error naming
the path: no connection is opened, no files are scanned, and no rows are
written. -/
theorem C8_path_not_found {α : Type} [DecidableEq α] (fs : FileSystem α)
    (db : Nat) (parquet_path : String) (definition : Definition)
    (hroot : fs.rootExists = false) :
    (ingest_parquet_to_db fs db parquet_path definition).outcome =
      some (.pathNotFound parquet_path) ∧
    (ingest_parquet_to_db fs db parquet_path definition).connOpened = false ∧
    (ingest_parquet_to_db fs db parquet_path definition).scanAttempted
      = false ∧
    (ingest_parquet_to_db fs db parquet_path definition).db = db ∧
    (ingest_parquet_to_db fs db parquet_path definition).inserted = none := by
  simp [ingest_parquet_to_db, hroot]

/-- Filesystem state for the C8 witness: the root directory is absent. -/
def fsC8 : FileSystem Nat := ⟨false, []⟩

/-- Witness for `C8_path_not_found` at a concrete missing path. -/
theorem C8_path_not_found_witness :
    (ingest_parquet_to_db fsC8 4 "missing/dir" defnW).outcome =
      some (IngestError.pathNotFound "missing/dir") ∧
    (ingest_parquet_to_db fsC8 4 "missing/dir" defnW).connOpened = false ∧
    (ingest_parquet_to_db fsC8 4 "missing/dir" defnW).scanAttempted = false ∧
    (ingest_parquet_to_db fsC8 4 "missing/dir" defnW).db = 4 ∧
    (ingest_parquet_to_db fsC8 4 "missing/dir" defnW).inserted = none :=
  C8_path_not_found fsC8 4 "missing/dir" defnW (by decide)

/-! ## C4 — projection onto the expected columns -/

/-- Claim C4: For every dataset that passes both validation checks, the
relation `ingest_parquet_to_db` inserts is the projection of the scanned
relation onto exactly `definition.expected_columns` in that declared order
(`df = df[expected_columns]`), discarding every extra column; the projection
depends only on the name-to-data mapping of the scanned relation, so the
resulting column order is independent of the source files' physical column
order. -/
theorem C4_projection {α : Type} [DecidableEq α] (fs : FileSystem α)
    (db : Nat) (parquet_path : String) (definition : Definition)
    (df : DataFrame α)
    (hroot : fs.rootExists = true)
    (hscan : duckdbScan fs.matchedFiles = Except.ok df)
    (hsup : ∀ c ∈ definition.expected_columns, c ∈ df.columnNames)
    (hid : "id" ∉ df.columnNames)
    (hts : "created_at" ∉ df.columnNames) :
    (ingest_parquet_to_db fs db parquet_path definition).inserted =
      some (df.select definition.expected_columns) ∧
    (df.select definition.expected_columns).columnNames =
      definition.expected_columns ∧
    (∀ df' : DataFrame α,
      (∀ c ∈ definition.expected_columns, df.findCol c = df'.findCol c) →
      df.select definition.expected_columns =
        df'.select definition.expected_columns) := by
  have hmiss := missingColsOf_eq_nil hsup
  refine ⟨?_, ?_, fun df' h => ?_⟩
  · simp [ingest_parquet_to_db, hroot, hscan, hmiss, hid, hts]
  · simp only [DataFrame.select, DataFrame.columnNames, List.map_map]
    show List.map id definition.expected_columns = definition.expected_columns
    exact List.map_id definition.expected_columns
  · simp only [DataFrame.select, DataFrame.mk.injEq]
    exact List.map_congr_left (fun c hc => by rw [h c hc])

/-- Dataset for the C4 witness: expected columns present, physically in
reverse order, plus an extra `v1`. -/
def fsC4 : FileSystem Nat :=
  ⟨true, [⟨[("v1", [7]), ("amount", [10]), ("time", [1])]⟩]⟩

/-- Same name-to-data mapping as the file in `fsC4`, different physical
column order. -/
def dfC4perm : DataFrame Nat :=
  ⟨[("time", [1]), ("v1", [7]), ("amount", [10])]⟩

/-- Witness for `C4_projection`: the inserted relation is exactly the
`time`, `amount` projection in declared order, and the same projection
results from a column-permuted source. -/
theorem C4_projection_witness :
    (ingest_parquet_to_db fsC4 0 "data/transactions" defnW).inserted =
      some ⟨[("time", [1]), ("amount", [10])]⟩ ∧
    (DataFrame.select ⟨[("v1", [7]), ("amount", [10]), ("time", [1])]⟩
      defnW.expected_columns).columnNames = ["time", "amount"] ∧
    DataFrame.select (⟨[("v1", [7]), ("amount", [10]), ("time", [1])]⟩ :
        DataFrame Nat) defnW.expected_columns =
      dfC4perm.select defnW.expected_columns := by
  have h := C4_projection fsC4 0 "data/transactions" defnW
    ⟨[("v1", [7]), ("amount", [10]), ("time", [1])]⟩ (by decide) rfl
    (by decide) (by decide) (by decide)
  exact ⟨by rw [h.1]; decide, by rw [h.2.1]; decide,
    h.2.2 dfC4perm (by decide)⟩

/-! ## C5 — empty datasets -/

/-- Claim C5 (amended): A matched dataset with zero rows (files present but
empty) flows through as a zero-row insert and a completion report of zero
rows processed.  (As literally stated the claim is false for the
zero-*files* case: when the two-level glob matches no files, DuckDB's
`read_parquet` raises an IO error rather than yielding an empty relation, so
ingestion fails instead of reporting zero rows — see
`C5_empty_counterexample`.) -/
theorem C5_zero_rows {α : Type} [DecidableEq α] (fs : FileSystem α)
    (db : Nat) (parquet_path : String) (definition : Definition)
    (df : DataFrame α)
    (hroot : fs.rootExists = true)
    (hscan : duckdbScan fs.matchedFiles = Except.ok df)
    (halign : df.Aligned)
    (hsup : ∀ c ∈ definition.expected_columns, c ∈ df.columnNames)
    (hid : "id" ∉ df.columnNames)
    (hts : "created_at" ∉ df.columnNames)
    (hzero : df.nRows = 0) :
    (ingest_parquet_to_db fs db parquet_path definition).outcome = none ∧
    (ingest_parquet_to_db fs db parquet_path definition).db = db ∧
    (ingest_parquet_to_db fs db parquet_path definition).report =
      some ⟨definition.table_name, 0⟩ := by
  have hmiss := missingColsOf_eq_nil hsup
  have hsel : (df.select definition.expected_columns).nRows = 0 := by
    by_cases hne : definition.expected_columns = []
    · rw [hne]
      rfl
    · rw [df.nRows_select_of_ne_nil hne halign hsup]
      exact hzero
  simp [ingest_parquet_to_db, hroot, hscan, hmiss, hid, hts, hsel]

/-- Dataset for the C5 witness: one matched file whose columns are all
empty. -/
def fsC5 : FileSystem Nat := ⟨true, [⟨[("time", []), ("amount", [])]⟩]⟩

/-- Witness for `C5_zero_rows`: a zero-row dataset is ingested without error,
leaves the count unchanged, and reports zero lines processed. -/
theorem C5_zero_rows_witness :
    (ingest_parquet_to_db fsC5 6 "data/transactions" defnW).outcome = none ∧
    (ingest_parquet_to_db fsC5 6 "data/transactions" defnW).db = 6 ∧
    (ingest_parquet_to_db fsC5 6 "data/transactions" defnW).report =
      some ⟨"transactions", 0⟩ :=
  C5_zero_rows fsC5 6 "data/transactions" defnW ⟨[("time", []), ("amount", [])]⟩
    (by decide) rfl (by unfold DataFrame.Aligned; decide) (by decide)
    (by decide) (by decide) (by decide)

/-- Filesystem refuting the zero-files half of C5: the root exists but the
glob matches no parquet files. -/
def fsC5e : FileSystem Nat := ⟨true, []⟩

/-- Counterexample to claim C5 as stated: when the glob matches zero files the
call does *not* perform a zero-row insert with a zero-row report — the scan
itself errors and no report is produced. -/
theorem C5_empty_counterexample :
    (ingest_parquet_to_db fsC5e 0 "data/transactions" defnW).outcome =
      some IngestError.noParquetFiles ∧
    (ingest_parquet_to_db fsC5e 0 "data/transactions" defnW).outcome ≠
      none ∧
    (ingest_parquet_to_db fsC5e 0 "data/transactions" defnW).report =
      none := by
  decide

/-! ## C6 — connection release discipline -/

/-- Claim C6 (amended): Whenever `parquet_path` exists, the connection is
opened; it is explicitly released (`con.close()`) before the call returns on
the success path only.  (As literally stated the claim is false: `ingest.py`
has no try/finally, so when a scan or validation error is raised after
`duckdb.connect`, the function propagates the exception without ever
reaching `con.close()` — see `C6_release_counterexample`.) -/
theorem C6_connection_release {α : Type} [DecidableEq α] (fs : FileSystem α)
    (db : Nat) (parquet_path : String) (definition : Definition)
    (hroot : fs.rootExists = true) :
    (ingest_parquet_to_db fs db parquet_path definition).connOpened = true ∧
    ((ingest_parquet_to_db fs db parquet_path definition).outcome = none →
      (ingest_parquet_to_db fs db parquet_path definition).connClosed
        = true) ∧
    ((ingest_parquet_to_db fs db parquet_path definition).outcome ≠ none →
      (ingest_parquet_to_db fs db parquet_path definition).connClosed
        = false) := by
  cases hscan : duckdbScan fs.matchedFiles with
  | error e => simp [ingest_parquet_to_db, hroot, hscan]
  | ok df =>
    by_cases hm : missingColsOf definition.expected_columns df.columnNames = []
    · by_cases hforb : "id" ∈ df.columnNames ∨ "created_at" ∈ df.columnNames
      · simp [ingest_parquet_to_db, hroot, hscan, hm, hforb]
      · simp [ingest_parquet_to_db, hroot, hscan, hm, hforb]
    · simp [ingest_parquet_to_db, hroot, hscan, hm]

/-- Dataset for the C6 counterexample: the scan succeeds but the expected
columns are missing, so a validation error is raised after the connect. -/
def fsC6 : FileSystem Nat := ⟨true, [⟨[("v9", [5])]⟩]⟩

/-- Counterexample to claim C6 as stated: a call that opened the connection and
then raised a validation error returns with the connection never explicitly
released. -/
theorem C6_release_counterexample :
    (ingest_parquet_to_db fsC6 0 "data/transactions" defnW).connOpened
      = true ∧
    (ingest_parquet_to_db fsC6 0 "data/transactions" defnW).connClosed
      = false ∧
    (ingest_parquet_to_db fsC6 0 "data/transactions" defnW).outcome ≠
      none := by
  decide

/-- Dataset for the C6 witness: a fully valid single-file dataset. -/
def fsC6w : FileSystem Nat := ⟨true, [⟨[("time", [1]), ("amount", [2])]⟩]⟩

/-- Witness for `C6_connection_release`: on a successful call the connection
was opened and explicitly closed. -/
theorem C6_connection_release_witness :
    (ingest_parquet_to_db fsC6w 0 "data/transactions" defnW).connOpened
      = true ∧
    (ingest_parquet_to_db fsC6w 0 "data/transactions" defnW).connClosed
      = true := by
  have h := C6_connection_release fsC6w 0 "data/transactions" defnW (by decide)
  exact ⟨h.1, h.2.1 (by decide)⟩

/-! ## C10 — case-sensitive check, lowercased report -/

/-- Is this an ASCII uppercase letter (code point 65–90)? -/
def isUpperAscii (ch : Char) : Bool :=
  decide (65 ≤ ch.toNat ∧ ch.toNat ≤ 90)

/-- Does the string contain an ASCII uppercase letter? -/
def hasUpperAscii (s : String) : Bool :=
  s.data.any isUpperAscii

theorem char_toNat_ofNat_valid {n : Nat} (h : n.isValidChar) :
    (Char.ofNat n).toNat = n := by
  rw [Char.ofNat, dif_pos h]
  rfl

theorem toLower_toNat_of_upper {ch : Char} (h1 : 65 ≤ ch.toNat)
    (h2 : ch.toNat ≤ 90) : (Char.toLower ch).toNat = ch.toNat + 32 := by
  rw [Char.toLower]
  simp only [ge_iff_le]
  rw [if_pos ⟨h1, h2⟩]
  exact char_toNat_ofNat_valid (Or.inl (by omega))

theorem toLower_ne_of_upper {ch : Char} (h1 : 65 ≤ ch.toNat)
    (h2 : ch.toNat ≤ 90) : Char.toLower ch ≠ ch := by
  intro he
  have hn := toLower_toNat_of_upper h1 h2
  rw [he] at hn
  omega

theorem map_fix_of_map_eq_self {α : Type} {f : α → α} :
    ∀ {l : List α}, l.map f = l → ∀ a ∈ l, f a = a := by
  intro l
  induction l with
  | nil => exact fun _ a ha => absurd ha (List.not_mem_nil a)
  | cons x xs ih =>
    intro h a ha
    rw [List.map_cons, List.cons.injEq] at h
    rcases List.mem_cons.mp ha with rfl | hxs
    · exact h.1
    · exact ih h.2 a hxs

theorem pyLower_ne_of_hasUpperAscii {s : String}
    (h : hasUpperAscii s = true) : pyLower s ≠ s := by
  intro he
  have hdata : s.data.map Char.toLower = s.data := congrArg String.data he
  obtain ⟨ch, hmem, hup⟩ := List.any_eq_true.mp h
  obtain ⟨h1, h2⟩ := of_decide_eq_true hup
  exact toLower_ne_of_upper h1 h2 (map_fix_of_map_eq_self hdata ch hmem)

/-- Claim C10: An expected column counts as present only under an exact
case-sensitive match with a scanned column name, yet the "missing columns"
error lists the lowercased forms of the missing expected names — so for any
expected column containing an (ASCII) uppercase letter, the name reported in
the error differs character-for-character from the name declared in
`expected_columns`. -/
theorem C10_lowercased_missing_names {α : Type} [DecidableEq α]
    (fs : FileSystem α) (db : Nat) (parquet_path : String)
    (definition : Definition) (df : DataFrame α) (c : String)
    (hroot : fs.rootExists = true)
    (hscan : duckdbScan fs.matchedFiles = Except.ok df)
    (hc : c ∈ definition.expected_columns)
    (habs : c ∉ df.columnNames)
    (hup : hasUpperAscii c = true) :
    (ingest_parquet_to_db fs db parquet_path definition).outcome =
      some (.missingColumns
        (missingColsOf definition.expected_columns df.columnNames)) ∧
    pyLower c ∈ missingColsOf definition.expected_columns df.columnNames ∧
    pyLower c ≠ c := by
  have hne : missingColsOf definition.expected_columns df.columnNames ≠ [] :=
    List.ne_nil_of_mem (mem_missingColsOf hc habs)
  refine ⟨?_, mem_missingColsOf hc habs, pyLower_ne_of_hasUpperAscii hup⟩
  simp [ingest_parquet_to_db, hroot, hscan, hne]

/-- The definition used in the C10 witness declares an uppercase-bearing
expected column `Amount`. -/
def defnC10 : Definition :=
  ⟨"transactions", "CREATE TABLE IF NOT EXISTS transactions", ["Amount"]⟩

/-- Dataset for the C10 witness: it carries `amount`, a case-variant of the
declared `Amount`, so the exact-match check still counts `Amount` missing. -/
def fsC10 : FileSystem Nat := ⟨true, [⟨[("amount", [1])]⟩]⟩

/-- Witness for `C10_lowercased_missing_names`: with declared column
`Amount` and scanned column `amount`, the call fails and reports `amount`,
which differs from the declared `Amount`. -/
theorem C10_lowercased_missing_names_witness :
    (ingest_parquet_to_db fsC10 0 "data/transactions" defnC10).outcome =
      some (IngestError.missingColumns ["amount"]) ∧
    pyLower "Amount" ≠ "Amount" := by
  have h := C10_lowercased_missing_names fsC10 0 "data/transactions" defnC10
    ⟨[("amount", [1])]⟩ "Amount" (by decide) rfl (by decide) (by decide)
    (by decide)
  exact ⟨by rw [h.1]; decide, h.2.2⟩

/-! ## C9 — idempotent schema setup (src/api/model.py, src/api/api.py) -/

/-- Literal DDL from `src/api/model.py`. -/
def CREATE_SEQUENCE_QUERY : String :=
  "CREATE SEQUENCE IF NOT EXISTS transaction_id_seq START 1 INCREMENT BY 1;"

/-- Literal DDL from `src/api/model.py` (table with sequence-defaulted `id`,
the 30 numeric fields, and a `CURRENT_TIMESTAMP`-defaulted `created_at`). -/
def BASE_TABLE_QUERY : String :=
  "CREATE TABLE IF NOT EXISTS transactions (\n    id INTEGER PRIMARY KEY DEFAULT nextval(\x27transaction_id_seq\x27),\n    time INTEGER,\n    v1 FLOAT, ... v28 FLOAT,\n    amount FLOAT,\n    created_at TIMESTAMP DEFAULT CURRENT_TIMESTAMP\n)"

/-- The database catalog state the two DDL statements touch: which sequences
and which tables exist. -/
structure Catalog where
  seqs : List String
  tables : List String
deriving DecidableEq, Repr

/-- A fresh database file: no sequences, no tables. -/
def Catalog.empty : Catalog := ⟨[], []⟩

/-- Semantics of `CREATE SEQUENCE IF NOT EXISTS name ...`: create the
sequence when absent, leave the catalog unchanged (raising no error) when it
already exists. -/
def createSequenceIfNotExists (name : String) (c : Catalog) : Catalog :=
  if name ∈ c.seqs then c else ⟨name :: c.seqs, c.tables⟩

/-- Semantics of `CREATE TABLE IF NOT EXISTS name ...`: create the table when
absent, leave the catalog unchanged (raising no error) when it already
exists. -/
def createTableIfNotExists (name : String) (c : Catalog) : Catalog :=
  if name ∈ c.tables then c else ⟨c.seqs, name :: c.tables⟩

/-- Shallow embedding of `startup_event` (`src/api/api.py`): execute
`CREATE_SEQUENCE_QUERY` then `BASE_TABLE_QUERY`, i.e. create-if-absent the
sequence `transaction_id_seq` and the table `transactions`.  The function is
total: no execution path raises. -/
def startup_event (c : Catalog) : Catalog :=
  createTableIfNotExists "transactions"
    (createSequenceIfNotExists "transaction_id_seq" c)

theorem mem_seqs_createSequenceIfNotExists (n : String) (c : Catalog) :
    n ∈ (createSequenceIfNotExists n c).seqs := by
  unfold createSequenceIfNotExists
  split
  · assumption
  · exact List.mem_cons_self n c.seqs

theorem mem_tables_createTableIfNotExists (n : String) (c : Catalog) :
    n ∈ (createTableIfNotExists n c).tables := by
  unfold createTableIfNotExists
  split
  · assumption
  · exact List.mem_cons_self n c.tables

theorem seqs_createTableIfNotExists (n : String) (c : Catalog) :
    (createTableIfNotExists n c).seqs = c.seqs := by
  unfold createTableIfNotExists
  split <;> rfl

theorem tables_createSequenceIfNotExists (n : String) (c : Catalog) :
    (createSequenceIfNotExists n c).tables = c.tables := by
  unfold createSequenceIfNotExists
  split <;> rfl

theorem createSequenceIfNotExists_eq_of_mem {n : String} {c : Catalog}
    (h : n ∈ c.seqs) : createSequenceIfNotExists n c = c := by
  unfold createSequenceIfNotExists
  exact if_pos h

theorem createTableIfNotExists_eq_of_mem {n : String} {c : Catalog}
    (h : n ∈ c.tables) : createTableIfNotExists n c = c := by
  unfold createTableIfNotExists
  exact if_pos h

theorem startup_event_idem (c : Catalog) :
    startup_event (startup_event c) = startup_event c := by
  unfold startup_event
  rw [createSequenceIfNotExists_eq_of_mem
    (by rw [seqs_createTableIfNotExists]
        exact mem_seqs_createSequenceIfNotExists _ _)]
  exact createTableIfNotExists_eq_of_mem
    (mem_tables_createTableIfNotExists _ _)

/-- Claim C9: executing the sequence-creation and table-creation statements
any number of times in succession yields exactly one sequence and one table
(create-if-absent idempotence of schema setup); the embedding is total, so
no execution raises an error. -/
theorem C9_schema_setup_idempotent (n : Nat) (h : 1 ≤ n) :
    startup_event^[n] Catalog.empty = startup_event Catalog.empty ∧
    (startup_event^[n] Catalog.empty).seqs.count "transaction_id_seq" = 1 ∧
    (startup_event^[n] Catalog.empty).tables.count "transactions" = 1 := by
  have hiter : startup_event^[n] Catalog.empty =
      startup_event Catalog.empty := by
    induction n with
    | zero => omega
    | succ m ih =>
      cases Nat.eq_or_lt_of_le (Nat.one_le_iff_ne_zero.mpr
        (Nat.succ_ne_zero m)) with
      | _ =>
        match m, ih with
        | 0, _ => rfl
        | Nat.succ k, ih =>
          rw [Function.iterate_succ_apply', ih (by omega)]
          exact startup_event_idem Catalog.empty
  refine ⟨hiter, ?_, ?_⟩ <;> rw [hiter] <;> decide

/-- Witness for `C9_schema_setup_idempotent`: five successive startup runs
leave exactly one sequence and one table. -/
theorem C9_schema_setup_idempotent_witness :
    startup_event^[5] Catalog.empty = startup_event Catalog.empty ∧
    (startup_event^[5] Catalog.empty).seqs.count "transaction_id_seq" = 1 ∧
    (startup_event^[5] Catalog.empty).tables.count "transactions" = 1 :=
  C9_schema_setup_idempotent 5 (by decide)

/-! ## C7 — DELETE /transactions/{id} (src/api/api.py) -/

/-- Value of `cur.rowcount` after `con.execute("DELETE ...")` in DuckDB's
Python client: the client does not track affected rows and implements the
DB-API `rowcount` attribute as a constant `-1`.  The repository's own test
`test_delete_transaction_not_found` pins this down: it deletes the absent id
9999 and asserts status 204, which is only reachable when
`cur.rowcount == 0` is false. -/
def duckdb_rowcount : Int := -1

/-- HTTP outcome of the delete handler: 204 No Content (the handler returns
`None` under `status_code=204`) or the raised `HTTPException(404)`. -/
inductive HttpOutcome where
  | noContent
  | notFound
deriving DecidableEq, Repr

/-- Shallow embedding of `delete_transaction` (`src/api/api.py`): run
`DELETE FROM transactions WHERE id = ?`, then raise 404 when
`cur.rowcount == 0`, else respond 204.  `store` is the list of transaction
ids present in the table. -/
def delete_transaction (store : List Nat) (transaction_id : Nat) :
    List Nat × HttpOutcome :=
  let store2 := store.filter (fun r => r ≠ transaction_id)
  if duckdb_rowcount = 0 then (store2, .notFound)
  else (store2, .noContent)

/-- Claim C7 (code bug): the handler does respond 204 and remove the record
when the id exists, but it also responds 204 — never 404 — when the id is
absent, because `cur.rowcount` is `-1` in DuckDB's client and the
`rowcount == 0` branch is unreachable.  Evaluated at the failing input
(empty store, id 9999, the input of `test_delete_transaction_not_found`) and
at a present id. -/
theorem C7_delete_transaction_responses :
    delete_transaction [] 9999 = ([], HttpOutcome.noContent) ∧
    delete_transaction [7] 7 = ([], HttpOutcome.noContent) ∧
    ¬ ∃ store id₀, (delete_transaction store id₀).2 = HttpOutcome.notFound := by
  refine ⟨by decide, by decide, ?_⟩
  rintro ⟨store, id₀, h⟩
  simp [delete_transaction, duckdb_rowcount] at h

end CaseSerasa
